import Mathlib

/-!
Verification of the relevance-matching core of the SDG spine-surgery
patient assistant (`app.py`).

The embedding models the pandas dataframe of protocol entries as a list of
`ProtocolRow` records.  The in-place assignment of the derived
`Search_Text` column performed by `find_relevant_info` is modelled by
state passing: the function returns both its result (the optional context
string) and the updated row list.  Scores and keyword sets use
`Finset String`, matching Python's `set` semantics.
-/

set_option autoImplicit false
set_option maxRecDepth 8192

namespace SDG

/-- One row of the protocol dataframe.  `searchText` models the derived
`Search_Text` column, absent (`none`) until `find_relevant_info` writes it. -/
structure ProtocolRow where
  surgeryType : String
  question : String
  alternateQuestions : String
  answer : String
  searchText : Option String
deriving DecidableEq, Repr

/-- The stopword set of `find_relevant_info` (line 60 of `app.py`), verbatim,
including the duplicated `"the"` which a set absorbs. -/
def stop_words : Finset String :=
  {"a", "about", "an", "are", "as", "at", "be", "by", "for", "from", "how",
   "i", "in", "is", "it", "of", "on", "or", "that", "the", "this", "to",
   "was", "what", "when", "where", "who", "will", "with", "the", "my",
   "can", "should", "do", "me", "your"}

/-- Whitespace splitting over a character list, Python's argumentless
`str.split`: maximal runs of non-whitespace characters become the tokens,
so no empty token is ever produced.  `cur` accumulates the current token
in reverse. -/
def split_ws : List Char → List Char → List String
  | [], cur => if cur.isEmpty then [] else [String.mk cur.reverse]
  | c :: cs, cur =>
      if c.isWhitespace then
        if cur.isEmpty then split_ws cs []
        else String.mk cur.reverse :: split_ws cs []
      else split_ws cs (c :: cur)

/-- `set(text.lower().split()) - stop_words` (lines 62 and 69): lower-case
character-wise, split on whitespace, form the set, remove stopwords. -/
def keywords (text : String) : Finset String :=
  (split_ws (text.data.map Char.toLower) []).toFinset \ stop_words

/-- The per-row effect of line 61: the derived `Search_Text` value is the
`Question` cell, a space, and the `Alternate_Questions` cell. -/
def search_text_row (r : ProtocolRow) : ProtocolRow :=
  { r with searchText := some (r.question ++ " " ++ r.alternateQuestions) }

/-- `dataframe['Search_Text'] = dataframe['Question'] + ' ' + dataframe['Alternate_Questions']`
(line 61): writes the derived column into every row. -/
def set_search_text (df : List ProtocolRow) : List ProtocolRow :=
  df.map search_text_row

/-- Keyword-overlap score of one row against the query keyword set:
`len(query_words.intersection(protocol_words))` where `protocol_words` is
computed from the row's `Search_Text` (lines 69-71). -/
def entry_score (query_words : Finset String) (row : ProtocolRow) : Nat :=
  (query_words ∩ keywords (row.searchText.getD "")).card

/-- The scanning loop of lines 65-74: walk the rows in order keeping
`(best_match_score, best_match_index)`, updating only on a strictly
greater score; the index accumulator starts at `-1`. -/
def scan_best (query_words : Finset String) :
    List ProtocolRow → Nat → Nat × Int → Nat × Int
  | [], _, acc => acc
  | row :: rest, index, acc =>
      let score := entry_score query_words row
      scan_best query_words rest (index + 1)
        (if score > acc.1 then (score, (index : Int)) else acc)

/-- The acceptance policy of lines 76-77:
match iff (`num_keywords <= 2` and `best_score == num_keywords`) or
(`num_keywords > 2` and `best_score >= 2`). -/
def is_match_policy (num_keywords best_score : Nat) : Bool :=
  (num_keywords ≤ 2 && best_score == num_keywords) ||
    (num_keywords > 2 && best_score ≥ 2)

/-- Python/pandas positional indexing `df.iloc[i]` with an `Int` index:
nonnegative indices address from the front, negative ones from the back;
out-of-range access (an `IndexError` in Python) is `none`. -/
def iloc (df : List ProtocolRow) (i : Int) : Option ProtocolRow :=
  if 0 ≤ i then df.get? i.toNat
  else if (-i).toNat ≤ df.length then df.get? (df.length - (-i).toNat) else none

/-- The context string built for a matched row (line 80). -/
def make_context (row : ProtocolRow) : String :=
  "--- RELEVANT PROTOCOL INFO ---\nQuestion: " ++ row.question ++
    "\nAnswer: " ++ row.answer ++ "\n--- END OF PROTOCOL INFO ---\n"

/-- `find_relevant_info` (lines 59-83).  Returns the optional context
string together with the updated dataframe (the `Search_Text` column is
assigned before anything else, so the updated rows are returned on every
path). -/
def find_relevant_info (user_question : String) (dataframe : List ProtocolRow) :
    Option String × List ProtocolRow :=
  let df := set_search_text dataframe
  let query_words := keywords user_question
  let num_keywords := query_words.card
  if num_keywords = 0 then (none, df)
  else
    let best := scan_best query_words df 0 (0, -1)
    if is_match_policy num_keywords best.1 then
      match iloc df best.2 with
      | some relevant_row => (some (make_context relevant_row), df)
      | none => (none, df)
    else
      (none, df)

/-- `create_protocol_prompt` (line 86): grounded-prompt template. -/
def create_protocol_prompt (user_question context : String) : String :=
  "You are a helpful, polite, and safe AI assistant for the OrthoIndy spine surgery practice. Your role is to answer patient questions about their upcoming surgery. You must adhere to the following rules STRICTLY:\n1. Base your answer ONLY on the information provided in the \x27RELEVANT PROTOCOL INFO\x27 section.\n2. Do NOT use any of your general medical knowledge.\n3. Begin your answer in a friendly and reassuring tone.\n\nPATIENT QUESTION: \"" ++
    user_question ++ "\"\n" ++ context ++ "\nPlease provide your answer now."

/-- The fixed part of the general-prompt template before the question
substitution point (line 89). -/
def general_prompt_pre : String :=
  "You are a helpful AI assistant with deep medical knowledge. A patient from the OrthoIndy spine surgery practice has asked a general medical question that is not covered by their surgeon\x27s specific post-operative protocols. Your task is to answer the following question clearly and accurately for a patient.\nCRITICAL RULE: After providing your answer, you MUST include the following disclaimer verbatim (exactly as written) at the end of your response, separated by a line.\n---\n*Disclaimer: This is general medical information and not a substitute for direct medical advice regarding your specific condition. This information is not part of Dr. [Your Name]\x27s official protocol. For any questions about your personal care plan, please contact the OrthoIndy office directly.*\n\nPATIENT QUESTION: \""

/-- The fixed part of the general-prompt template after the question
substitution point (line 89). -/
def general_prompt_suf : String :=
  "\"\nPlease provide your answer now, followed by the mandatory disclaimer."

/-- `create_general_prompt` (lines 88-89): the template has a single
substitution point, the question. -/
def create_general_prompt (user_question : String) : String :=
  general_prompt_pre ++ user_question ++ general_prompt_suf

/-- The mandatory disclaimer text embedded verbatim in the general-prompt
template. -/
def mandatory_disclaimer : String :=
  "*Disclaimer: This is general medical information and not a substitute for direct medical advice regarding your specific condition. This information is not part of Dr. [Your Name]\x27s official protocol. For any questions about your personal care plan, please contact the OrthoIndy office directly.*"

/-- Wall-clock instant, the fields `strftime` reads. -/
structure DateTime where
  year : Nat
  month : Nat
  day : Nat
  hour : Nat
  minute : Nat
  second : Nat
deriving DecidableEq, Repr

/-- Zero-padding to two digits, as `%m`, `%d`, `%H`, `%M`, `%S` do. -/
def pad2 (n : Nat) : String :=
  if n < 10 then "0" ++ toString n else toString n

/-- `datetime.datetime.now().strftime("%Y-%m-%d %H:%M:%S")` (line 94). -/
def format_timestamp (t : DateTime) : String :=
  toString t.year ++ "-" ++ pad2 t.month ++ "-" ++ pad2 t.day ++ " " ++
    pad2 t.hour ++ ":" ++ pad2 t.minute ++ ":" ++ pad2 t.second

/-- `log_unanswered_question` (lines 91-98), modelled as the list of rows
passed to the sheet collaborator's `append_row`: nothing when the sheets
client is unavailable, otherwise the single row
`[timestamp, surgery_type, user_question]`. -/
def log_unanswered_question (gsheetsAvailable : Bool) (now : DateTime)
    (user_question surgery_type : String) : List (List String) :=
  if gsheetsAvailable then [[format_timestamp now, surgery_type, user_question]]
  else []

/-- `get_model_response` (lines 100-109).  The external model collaborator
is a function from the prompt to `Except`: `.ok` is the completion text,
`.error` the message of a raised exception.  The embedding is total and
returns the inline error strings of the source on every failure path. -/
def get_model_response (groqAvailable : Bool)
    (modelCall : String → Except String String) (prompt_text : String) : String :=
  if groqAvailable then
    match modelCall prompt_text with
    | Except.ok content => content
    | Except.error e => "An error occurred while contacting the AI model: " ++ e
  else "The AI model is currently unavailable."

/-- The per-question routing of lines 154-161: run the matcher; on a match
build the grounded prompt and log nothing; on no match invoke the logging
collaborator and build the general prompt.  Returns the final prompt and
the rows appended to the log sheet. -/
def routing (gsheetsAvailable : Bool) (now : DateTime)
    (surgery_type prompt : String) (session_df : List ProtocolRow) :
    String × List (List String) :=
  match (find_relevant_info prompt session_df).1 with
  | some protocol_context =>
      (create_protocol_prompt prompt protocol_context, [])
  | none =>
      (create_general_prompt prompt,
        log_unanswered_question gsheetsAvailable now prompt surgery_type)

/-- The four source fields of a row, the ones loaded from the protocol
file. -/
def source_fields (r : ProtocolRow) : String × String × String × String :=
  (r.surgeryType, r.question, r.alternateQuestions, r.answer)

/-- A concrete protocol entry used to instantiate the quantified theorems. -/
def discectomy_row : ProtocolRow :=
  { surgeryType := "ACDF", question := "What is a discectomy",
    alternateQuestions := "", answer := "A discectomy removes disc material.",
    searchText := none }

/-- A second entry also containing the keyword `discectomy`, for the
tie-breaking instantiation. -/
def discectomy_row_late : ProtocolRow :=
  { surgeryType := "ACDF", question := "Is a discectomy painful",
    alternateQuestions := "", answer := "Discomfort fades in days.",
    searchText := none }

/-- A concrete entry whose keyword set covers `shower` and `surgery`. -/
def shower_row : ProtocolRow :=
  { surgeryType := "ACDF", question := "When can I shower after surgery",
    alternateQuestions := "", answer := "You may shower after 48 hours.",
    searchText := none }

/-- A concrete entry whose keyword set shares only `shower` with the
scenario-B query. -/
def shower_only_row : ProtocolRow :=
  { surgeryType := "ACDF", question := "How long should I shower",
    alternateQuestions := "", answer := "Keep it short.",
    searchText := none }

end SDG

namespace SDG

/-! ### Properties of the scanning loop -/

theorem scan_best_nil (Q : Finset String) (i : Nat) (acc : Nat × Int) :
    scan_best Q [] i acc = acc := rfl

theorem scan_best_cons (Q : Finset String) (row : ProtocolRow) (rest : List ProtocolRow)
    (i : Nat) (acc : Nat × Int) :
    scan_best Q (row :: rest) i acc =
      scan_best Q rest (i + 1)
        (if entry_score Q row > acc.1 then (entry_score Q row, (i : Int)) else acc) := rfl

/-- The running best score never decreases. -/
theorem scan_best_fst_le (Q : Finset String) (rows : List ProtocolRow) :
    ∀ (i : Nat) (acc : Nat × Int), acc.1 ≤ (scan_best Q rows i acc).1 := by
  induction rows with
  | nil => intro i acc; exact le_refl _
  | cons row rest ih =>
      intro i acc
      rw [scan_best_cons]
      by_cases h : entry_score Q row > acc.1
      · rw [if_pos h]
        exact le_trans (le_of_lt h)
          (ih (i + 1) (entry_score Q row, (i : Int)))
      · rw [if_neg h]
        exact ih (i + 1) acc

/-- If the loop never improves on the accumulator's score, the tracked
index is left untouched (updates happen only on a strict increase). -/
theorem scan_best_snd_of_fst_eq (Q : Finset String) (rows : List ProtocolRow) :
    ∀ (i : Nat) (acc : Nat × Int), (scan_best Q rows i acc).1 = acc.1 →
      (scan_best Q rows i acc).2 = acc.2 := by
  induction rows with
  | nil => intro i acc _; rfl
  | cons row rest ih =>
      intro i acc h
      rw [scan_best_cons] at h ⊢
      by_cases hs : entry_score Q row > acc.1
      · rw [if_pos hs] at h ⊢
        have h2 : entry_score Q row ≤
            (scan_best Q rest (i + 1) (entry_score Q row, (i : Int))).1 :=
          scan_best_fst_le Q rest (i + 1) (entry_score Q row, (i : Int))
        omega
      · rw [if_neg hs] at h ⊢
        exact ih (i + 1) acc h

/-- When the loop strictly improves on the accumulator, the returned index
designates the first row attaining the final best score: that row scores
exactly the final best, every earlier row scores strictly less. -/
theorem scan_best_found (Q : Finset String) (rows : List ProtocolRow) :
    ∀ (i : Nat) (acc : Nat × Int), acc.1 < (scan_best Q rows i acc).1 →
      ∃ j row, rows.get? j = some row ∧
        (scan_best Q rows i acc).2 = ((i + j : Nat) : Int) ∧
        entry_score Q row = (scan_best Q rows i acc).1 ∧
        ∀ k row', k < j → rows.get? k = some row' →
          entry_score Q row' < (scan_best Q rows i acc).1 := by
  induction rows with
  | nil => intro i acc h; exact absurd h (lt_irrefl _)
  | cons row rest ih =>
      intro i acc h
      rw [scan_best_cons] at h ⊢
      by_cases hs : entry_score Q row > acc.1
      · rw [if_pos hs] at h ⊢
        by_cases heq :
            (scan_best Q rest (i + 1) (entry_score Q row, (i : Int))).1 =
              entry_score Q row
        · refine ⟨0, row, rfl, ?_, heq.symm, ?_⟩
          · have h2 := scan_best_snd_of_fst_eq Q rest (i + 1)
              (entry_score Q row, (i : Int)) heq
            simpa using h2
          · intro k row' hk _
            exact absurd hk (Nat.not_lt_zero k)
        · have h2 : entry_score Q row ≤
              (scan_best Q rest (i + 1) (entry_score Q row, (i : Int))).1 :=
            scan_best_fst_le Q rest (i + 1) (entry_score Q row, (i : Int))
          have hlt : entry_score Q row <
              (scan_best Q rest (i + 1) (entry_score Q row, (i : Int))).1 := by
            omega
          obtain ⟨j, row', hget, hsnd, hscore, hearlier⟩ :=
            ih (i + 1) (entry_score Q row, (i : Int)) hlt
          refine ⟨j + 1, row', by simpa using hget, ?_, hscore, ?_⟩
          · rw [hsnd]; omega
          · intro k row'' hk hgetk
            cases k with
            | zero =>
                have : row = row'' := by simpa using hgetk
                subst this
                exact hlt
            | succ k' =>
                exact hearlier k' row'' (by omega) (by simpa using hgetk)
      · rw [if_neg hs] at h ⊢
        obtain ⟨j, row', hget, hsnd, hscore, hearlier⟩ := ih (i + 1) acc h
        refine ⟨j + 1, row', by simpa using hget, ?_, hscore, ?_⟩
        · rw [hsnd]; omega
        · intro k row'' hk hgetk
          cases k with
          | zero =>
              have heq : row = row'' := by simpa using hgetk
              subst heq
              omega
          | succ k' =>
              exact hearlier k' row'' (by omega) (by simpa using hgetk)

/-- Every row in the scanned list scores at most the final best score. -/
theorem scan_best_ge_of_mem (Q : Finset String) (rows : List ProtocolRow) :
    ∀ (i : Nat) (acc : Nat × Int) (row : ProtocolRow), row ∈ rows →
      entry_score Q row ≤ (scan_best Q rows i acc).1 := by
  induction rows with
  | nil => intro i acc row hrow; exact absurd hrow (List.not_mem_nil row)
  | cons row0 rest ih =>
      intro i acc row hrow
      rw [scan_best_cons]
      rcases List.mem_cons.mp hrow with h1 | h1
      · subst h1
        by_cases hs : entry_score Q row > acc.1
        · rw [if_pos hs]
          exact scan_best_fst_le Q rest (i + 1) (entry_score Q row, (i : Int))
        · rw [if_neg hs]
          exact le_trans (not_lt.mp hs) (scan_best_fst_le Q rest (i + 1) acc)
      · by_cases hs : entry_score Q row0 > acc.1
        · rw [if_pos hs]; exact ih (i + 1) (entry_score Q row0, (i : Int)) row h1
        · rw [if_neg hs]; exact ih (i + 1) acc row h1

/-- An upper bound on the accumulator and on every row's score bounds the
final best score. -/
theorem scan_best_le_bound (Q : Finset String) (rows : List ProtocolRow) :
    ∀ (i : Nat) (acc : Nat × Int) (B : Nat), acc.1 ≤ B →
      (∀ row ∈ rows, entry_score Q row ≤ B) →
      (scan_best Q rows i acc).1 ≤ B := by
  induction rows with
  | nil => intro i acc B hacc _; exact hacc
  | cons row rest ih =>
      intro i acc B hacc hall
      rw [scan_best_cons]
      by_cases hs : entry_score Q row > acc.1
      · rw [if_pos hs]
        exact ih (i + 1) (entry_score Q row, (i : Int)) B
          (hall row (List.mem_cons_self row rest))
          (fun r hr => hall r (List.mem_cons_of_mem row hr))
      · rw [if_neg hs]
        exact ih (i + 1) acc B hacc
          (fun r hr => hall r (List.mem_cons_of_mem row hr))

/-- A row's score never exceeds the number of query keywords. -/
theorem entry_score_le_card (Q : Finset String) (row : ProtocolRow) :
    entry_score Q row ≤ Q.card :=
  Finset.card_le_card Finset.inter_subset_left

/-! ### The dataframe after the `Search_Text` assignment -/

theorem entry_score_search_text_row (Q : Finset String) (r : ProtocolRow) :
    entry_score Q (search_text_row r) =
      (Q ∩ keywords (r.question ++ " " ++ r.alternateQuestions)).card := rfl

theorem mem_set_search_text (df : List ProtocolRow) (r' : ProtocolRow) :
    r' ∈ set_search_text df ↔ ∃ r ∈ df, search_text_row r = r' := by
  simp [set_search_text, List.mem_map]

/-- Scores over the updated rows correspond to keyword statements over the
original rows. -/
theorem exists_score_iff (Q : Finset String) (df : List ProtocolRow) (p : Nat → Prop) :
    (∃ row ∈ set_search_text df, p (entry_score Q row)) ↔
      ∃ r ∈ df, p ((Q ∩ keywords (r.question ++ " " ++ r.alternateQuestions)).card) := by
  constructor
  · rintro ⟨row, hmem, hp⟩
    obtain ⟨r, hr, rfl⟩ := (mem_set_search_text df row).mp hmem
    exact ⟨r, hr, hp⟩
  · rintro ⟨r, hr, hp⟩
    exact ⟨search_text_row r, (mem_set_search_text df _).mpr ⟨r, hr, rfl⟩, hp⟩

/-- Positional indexing at a natural number is plain list lookup. -/
theorem iloc_coe (df : List ProtocolRow) (j : Nat) :
    iloc df ((j : Nat) : Int) = df.get? j := by
  rw [iloc, if_pos (Int.natCast_nonneg j)]
  simp

/-! ### The acceptance policy -/

theorem is_match_policy_iff (n b : Nat) :
    is_match_policy n b = true ↔ ((n ≤ 2 ∧ b = n) ∨ (2 < n ∧ 2 ≤ b)) := by
  simp [is_match_policy]

/-- An accepted score is positive whenever the query has at least one
keyword. -/
theorem is_match_policy_pos (n b : Nat) (hn : n ≠ 0)
    (h : is_match_policy n b = true) : 1 ≤ b := by
  rcases (is_match_policy_iff n b).mp h with ⟨_, hb⟩ | ⟨_, hb⟩ <;> omega

/-! ### Characterizations of `find_relevant_info` -/

/-- The updated dataframe returned by `find_relevant_info` is, on every
path, the input with the `Search_Text` column assigned. -/
theorem find_relevant_info_snd (q : String) (df : List ProtocolRow) :
    (find_relevant_info q df).2 = set_search_text df := by
  simp only [find_relevant_info]
  split
  · rfl
  · split
    · split <;> rfl
    · rfl

/-- Anatomy of a successful match: the query has a keyword, the policy
accepts the best score, and the returned context belongs to the first row
attaining the best score, which is positive. -/
theorem find_relevant_info_some_elim (q : String) (df : List ProtocolRow) (ctx : String)
    (h : (find_relevant_info q df).1 = some ctx) :
    1 ≤ (keywords q).card ∧
    is_match_policy (keywords q).card
      (scan_best (keywords q) (set_search_text df) 0 (0, -1)).1 = true ∧
    ∃ j row, (set_search_text df).get? j = some row ∧
      (scan_best (keywords q) (set_search_text df) 0 (0, -1)).2 = ((j : Nat) : Int) ∧
      entry_score (keywords q) row =
        (scan_best (keywords q) (set_search_text df) 0 (0, -1)).1 ∧
      1 ≤ entry_score (keywords q) row ∧
      (∀ k row', k < j → (set_search_text df).get? k = some row' →
        entry_score (keywords q) row' < entry_score (keywords q) row) ∧
      ctx = make_context row := by
  simp only [find_relevant_info] at h
  split at h
  · exact absurd h (by simp)
  · next hn =>
      split at h
      · next hp =>
          have hb1 : 1 ≤ (scan_best (keywords q) (set_search_text df) 0 (0, -1)).1 :=
            is_match_policy_pos _ _ hn hp
          have hpos : ((0, -1) : Nat × Int).1 <
              (scan_best (keywords q) (set_search_text df) 0 (0, -1)).1 := hb1
          obtain ⟨j, row, hget, hsnd, hscore, hearlier⟩ :=
            scan_best_found (keywords q) (set_search_text df) 0 (0, -1) hpos
          have hsnd' : (scan_best (keywords q) (set_search_text df) 0 (0, -1)).2 =
              ((j : Nat) : Int) := by
            rw [hsnd]; omega
          rw [hsnd', iloc_coe, hget] at h
          refine ⟨by omega, hp, j, row, hget, hsnd', hscore, by omega, ?_, ?_⟩
          · intro k row' hk hgetk
            rw [hscore]
            exact hearlier k row' hk hgetk
          · have : some (make_context row) = some ctx := h
            exact (Option.some.inj this).symm
      · exact absurd h (by simp)

/-- A match is returned exactly when the query keyword set is nonempty and
the policy accepts the best score found by the scan. -/
theorem find_relevant_info_isSome_iff (q : String) (df : List ProtocolRow)
    (hn : (keywords q).card ≠ 0) :
    ((find_relevant_info q df).1).isSome = true ↔
      is_match_policy (keywords q).card
        (scan_best (keywords q) (set_search_text df) 0 (0, -1)).1 = true := by
  constructor
  · intro h
    obtain ⟨ctx, hctx⟩ := Option.isSome_iff_exists.mp h
    exact (find_relevant_info_some_elim q df ctx hctx).2.1
  · intro hp
    have hb1 : 1 ≤ (scan_best (keywords q) (set_search_text df) 0 (0, -1)).1 :=
      is_match_policy_pos _ _ hn hp
    have hpos : ((0, -1) : Nat × Int).1 <
        (scan_best (keywords q) (set_search_text df) 0 (0, -1)).1 := hb1
    obtain ⟨j, row, hget, hsnd, _, _⟩ :=
      scan_best_found (keywords q) (set_search_text df) 0 (0, -1) hpos
    have hsnd' : (scan_best (keywords q) (set_search_text df) 0 (0, -1)).2 =
        ((j : Nat) : Int) := by
      rw [hsnd]; omega
    simp only [find_relevant_info]
    rw [if_neg hn, if_pos hp, hsnd', iloc_coe, hget]
    rfl

/-! ### Best-score characterizations -/

/-- With at least one query keyword, the best score reaches the full query
size exactly when some scanned row scores the full query size. -/
theorem scan_best_eq_card_iff (Q : Finset String) (rows : List ProtocolRow)
    (h1 : 1 ≤ Q.card) :
    (scan_best Q rows 0 (0, -1)).1 = Q.card ↔
      ∃ row ∈ rows, entry_score Q row = Q.card := by
  constructor
  · intro hb
    have hpos : ((0, -1) : Nat × Int).1 < (scan_best Q rows 0 (0, -1)).1 := by
      show (0 : Nat) < _
      omega
    obtain ⟨j, row, hget, _, hscore, _⟩ := scan_best_found Q rows 0 (0, -1) hpos
    exact ⟨row, List.get?_mem hget, by omega⟩
  · rintro ⟨row, hmem, hscore⟩
    have hle : entry_score Q row ≤ (scan_best Q rows 0 (0, -1)).1 :=
      scan_best_ge_of_mem Q rows 0 (0, -1) row hmem
    have hge : (scan_best Q rows 0 (0, -1)).1 ≤ Q.card :=
      scan_best_le_bound Q rows 0 (0, -1) Q.card (Nat.zero_le _)
        (fun r _ => entry_score_le_card Q r)
    omega

/-- The best score reaches two exactly when some scanned row scores at
least two. -/
theorem scan_best_ge_two_iff (Q : Finset String) (rows : List ProtocolRow) :
    2 ≤ (scan_best Q rows 0 (0, -1)).1 ↔
      ∃ row ∈ rows, 2 ≤ entry_score Q row := by
  constructor
  · intro hb
    have hpos : ((0, -1) : Nat × Int).1 < (scan_best Q rows 0 (0, -1)).1 := by
      show (0 : Nat) < _
      omega
    obtain ⟨j, row, hget, _, hscore, _⟩ := scan_best_found Q rows 0 (0, -1) hpos
    exact ⟨row, List.get?_mem hget, by omega⟩
  · rintro ⟨row, hmem, h2⟩
    have := scan_best_ge_of_mem Q rows 0 (0, -1) row hmem
    omega

/-- Full coverage of the query keywords is the same as a full-size
intersection. -/
theorem inter_card_eq_iff (Q E : Finset String) :
    (Q ∩ E).card = Q.card ↔ Q ⊆ E := by
  constructor
  · intro h
    have heq : Q ∩ E = Q :=
      Finset.eq_of_subset_of_card_le Finset.inter_subset_left (le_of_eq h.symm)
    exact Finset.inter_eq_left.mp heq
  · intro h
    rw [Finset.inter_eq_left.mpr h]

/-! ### The claims -/

/-- C1: for a question with exactly 1 or 2 keywords, `find_relevant_info`
returns a match iff some entry's keyword set (computed from
`question + " " + alternate_questions`) is a superset of the query's
keyword set; equivalently, iff the best score equals the query keyword
count. -/
theorem small_query_match_iff_superset (q : String) (df : List ProtocolRow)
    (h1 : 1 ≤ (keywords q).card) (h2 : (keywords q).card ≤ 2) :
    (((find_relevant_info q df).1).isSome = true ↔
      ∃ r ∈ df, keywords q ⊆ keywords (r.question ++ " " ++ r.alternateQuestions)) ∧
    (((find_relevant_info q df).1).isSome = true ↔
      (scan_best (keywords q) (set_search_text df) 0 (0, -1)).1 = (keywords q).card) := by
  have hn : (keywords q).card ≠ 0 := by omega
  have hA := find_relevant_info_isSome_iff q df hn
  have hB : is_match_policy (keywords q).card
      (scan_best (keywords q) (set_search_text df) 0 (0, -1)).1 = true ↔
      (scan_best (keywords q) (set_search_text df) 0 (0, -1)).1 = (keywords q).card := by
    rw [is_match_policy_iff]
    constructor
    · rintro (⟨_, hb⟩ | ⟨hgt, _⟩)
      · exact hb
      · omega
    · intro hb
      exact Or.inl ⟨h2, hb⟩
  have hC := scan_best_eq_card_iff (keywords q) (set_search_text df) h1
  have hD := exists_score_iff (keywords q) df (fun c => c = (keywords q).card)
  have hE : (∃ r ∈ df,
        ((keywords q) ∩ keywords (r.question ++ " " ++ r.alternateQuestions)).card =
          (keywords q).card) ↔
      ∃ r ∈ df, keywords q ⊆ keywords (r.question ++ " " ++ r.alternateQuestions) :=
    exists_congr fun r => and_congr_right fun _ => inter_card_eq_iff _ _
  exact ⟨(hA.trans hB).trans (hC.trans (hD.trans hE)), hA.trans hB⟩

/-- Witness for C1 at the one-keyword query `"what is a discectomy"`
against a single entry covering `discectomy`. -/
theorem small_query_match_iff_superset_witness :
    (1 ≤ (keywords "what is a discectomy").card ∧
      (keywords "what is a discectomy").card ≤ 2) ∧
    ((((find_relevant_info "what is a discectomy" [discectomy_row]).1).isSome = true ↔
        ∃ r ∈ [discectomy_row],
          keywords "what is a discectomy" ⊆
            keywords (r.question ++ " " ++ r.alternateQuestions)) ∧
      (((find_relevant_info "what is a discectomy" [discectomy_row]).1).isSome = true ↔
        (scan_best (keywords "what is a discectomy")
            (set_search_text [discectomy_row]) 0 (0, -1)).1 =
          (keywords "what is a discectomy").card)) :=
  ⟨⟨by decide, by decide⟩,
    small_query_match_iff_superset "what is a discectomy" [discectomy_row]
      (by decide) (by decide)⟩

/-- C2: for a question with more than 2 keywords, `find_relevant_info`
returns a match iff some entry shares at least 2 keywords with the query;
the query's total keyword count imposes no further condition. -/
theorem large_query_match_iff_overlap (q : String) (df : List ProtocolRow)
    (h : 2 < (keywords q).card) :
    ((find_relevant_info q df).1).isSome = true ↔
      ∃ r ∈ df,
        2 ≤ ((keywords q) ∩ keywords (r.question ++ " " ++ r.alternateQuestions)).card := by
  have hn : (keywords q).card ≠ 0 := by omega
  have hA := find_relevant_info_isSome_iff q df hn
  have hB : is_match_policy (keywords q).card
      (scan_best (keywords q) (set_search_text df) 0 (0, -1)).1 = true ↔
      2 ≤ (scan_best (keywords q) (set_search_text df) 0 (0, -1)).1 := by
    rw [is_match_policy_iff]
    constructor
    · rintro (⟨hle, _⟩ | ⟨_, hb⟩)
      · omega
      · exact hb
    · intro hb
      exact Or.inr ⟨h, hb⟩
  exact hA.trans (hB.trans ((scan_best_ge_two_iff _ _).trans
    (exists_score_iff (keywords q) df (fun c => 2 ≤ c))))

/-- Witness for C2 at the three-keyword query
`"can I shower after my surgery"` against an entry sharing all three
keywords. -/
theorem large_query_match_iff_overlap_witness :
    2 < (keywords "can I shower after my surgery").card ∧
    (((find_relevant_info "can I shower after my surgery" [shower_row]).1).isSome = true ↔
      ∃ r ∈ [shower_row],
        2 ≤ ((keywords "can I shower after my surgery") ∩
              keywords (r.question ++ " " ++ r.alternateQuestions)).card) :=
  ⟨by decide,
    large_query_match_iff_overlap "can I shower after my surgery" [shower_row]
      (by decide)⟩

/-- C3 counterexample: the stopword list of the source contains neither
`after` nor any rule removing it, so the keyword set of the scenario-B
query is not `{shower, surgery}`: it contains `after`. -/
theorem scenario_b_keywords_counterexample :
    "after" ∈ keywords "can I shower after my surgery" ∧
    keywords "can I shower after my surgery" ≠ ({"shower", "surgery"} : Finset String) := by
  decide

/-- C3 amended: the tokenizer removes the stopwords `can`, `i`, `my` (but
not `after`, which is absent from the stopword list) and yields the
keyword set `{shower, after, surgery}` of size 3, so the >2 regime
applies: an entry covering both `shower` and `surgery` matches (overlap at
least 2), and an entry sharing only `shower` is rejected. -/
theorem scenario_b_amended :
    keywords "can I shower after my surgery" =
      ({"shower", "after", "surgery"} : Finset String) ∧
    ((find_relevant_info "can I shower after my surgery" [shower_row]).1).isSome = true ∧
    (find_relevant_info "can I shower after my surgery" [shower_only_row]).1 = none := by
  decide

/-- C4: whenever `find_relevant_info` returns a match, the selected entry
attains the maximal keyword-overlap score and every entry placed earlier
in the sequence scores strictly less, so among tied top scorers the
earliest entry wins (the comparison is strict `>`). -/
theorem tie_break_earliest (q : String) (df : List ProtocolRow) (ctx : String)
    (h : (find_relevant_info q df).1 = some ctx) :
    ∃ j row, (set_search_text df).get? j = some row ∧ ctx = make_context row ∧
      (∀ row' ∈ set_search_text df,
        entry_score (keywords q) row' ≤ entry_score (keywords q) row) ∧
      ∀ k row', k < j → (set_search_text df).get? k = some row' →
        entry_score (keywords q) row' < entry_score (keywords q) row := by
  obtain ⟨_, _, j, row, hget, _, hscore, _, hearlier, hctx⟩ :=
    find_relevant_info_some_elim q df ctx h
  refine ⟨j, row, hget, hctx, ?_, hearlier⟩
  intro row' hmem
  rw [hscore]
  exact scan_best_ge_of_mem _ _ 0 (0, -1) row' hmem

/-- Witness for C4: two entries tie at score 1 on the query
`"what is a discectomy"` and the context of the first is returned. -/
theorem tie_break_earliest_witness :
    ∃ j row,
      (set_search_text [discectomy_row, discectomy_row_late]).get? j = some row ∧
      make_context (search_text_row discectomy_row) = make_context row ∧
      (∀ row' ∈ set_search_text [discectomy_row, discectomy_row_late],
        entry_score (keywords "what is a discectomy") row' ≤
          entry_score (keywords "what is a discectomy") row) ∧
      ∀ k row', k < j →
        (set_search_text [discectomy_row, discectomy_row_late]).get? k = some row' →
        entry_score (keywords "what is a discectomy") row' <
          entry_score (keywords "what is a discectomy") row :=
  tie_break_earliest "what is a discectomy" [discectomy_row, discectomy_row_late]
    (make_context (search_text_row discectomy_row)) (by decide)

/-- C5: a question whose keyword set is empty (for example one made only
of stopwords) yields no match, for every sequence of entries. -/
theorem empty_keywords_no_match (q : String) (df : List ProtocolRow)
    (h : keywords q = ∅) : (find_relevant_info q df).1 = none := by
  have h0 : (keywords q).card = 0 := by rw [h]; rfl
  simp [find_relevant_info, h0]

/-- Witness for C5 at the all-stopword question `"can i do the"`. -/
theorem empty_keywords_no_match_witness :
    (find_relevant_info "can i do the" [discectomy_row]).1 = none :=
  empty_keywords_no_match "can i do the" [discectomy_row] (by decide)

/-- C6: running `find_relevant_info` preserves every entry's four source
fields, and the derived `Search_Text` value it stores is recomputed,
row by row, from the entry's `question` and `alternate_questions` fields,
never held independently of them. -/
theorem find_preserves_source_fields (q : String) (df : List ProtocolRow) :
    ((find_relevant_info q df).2).map source_fields = df.map source_fields ∧
    ((find_relevant_info q df).2).map (fun r => r.searchText) =
      df.map (fun r => some (r.question ++ " " ++ r.alternateQuestions)) := by
  rw [find_relevant_info_snd]
  constructor
  · rw [set_search_text, List.map_map]
    congr 1
  · rw [set_search_text, List.map_map]
    congr 1

/-- C7: per question the routing logs exactly when the matcher returns no
match, appending the single row `[timestamp, surgery_type, question]` and
building the general prompt; on a match it logs nothing and builds the
grounded prompt, so exactly one prompt kind is produced per question. -/
theorem routing_logs_iff_no_match (gs : Bool) (now : DateTime)
    (sType q : String) (df : List ProtocolRow) (hgs : gs = true) :
    ((find_relevant_info q df).1 = none →
        (routing gs now sType q df).1 = create_general_prompt q ∧
        (routing gs now sType q df).2 = [[format_timestamp now, sType, q]]) ∧
    (∀ ctx, (find_relevant_info q df).1 = some ctx →
        (routing gs now sType q df).1 = create_protocol_prompt q ctx ∧
        (routing gs now sType q df).2 = []) := by
  subst hgs
  constructor
  · intro h
    simp [routing, h, log_unanswered_question]
  · intro ctx h
    simp [routing, h]

/-- Witness for C7 at an unmatched question over an empty entry list. -/
theorem routing_logs_iff_no_match_witness :
    ((find_relevant_info "zzz qqq ppp" []).1 = none →
        (routing true ⟨2026, 10, 12, 14, 30, 5⟩ "ACDF" "zzz qqq ppp" []).1 =
          create_general_prompt "zzz qqq ppp" ∧
        (routing true ⟨2026, 10, 12, 14, 30, 5⟩ "ACDF" "zzz qqq ppp" []).2 =
          [[format_timestamp ⟨2026, 10, 12, 14, 30, 5⟩, "ACDF", "zzz qqq ppp"]]) ∧
    (∀ ctx, (find_relevant_info "zzz qqq ppp" []).1 = some ctx →
        (routing true ⟨2026, 10, 12, 14, 30, 5⟩ "ACDF" "zzz qqq ppp" []).1 =
          create_protocol_prompt "zzz qqq ppp" ctx ∧
        (routing true ⟨2026, 10, 12, 14, 30, 5⟩ "ACDF" "zzz qqq ppp" []).2 = []) :=
  routing_logs_iff_no_match true ⟨2026, 10, 12, 14, 30, 5⟩ "ACDF" "zzz qqq ppp" [] rfl

/-- C8: `get_model_response` is total; when the collaborator is
unavailable at startup it returns the fixed unavailability string, and
when the call raises it returns the inline error string carrying the
exception text, never propagating a failure. -/
theorem model_response_inline_errors (avail : Bool)
    (call : String → Except String String) (p : String) :
    (avail = false →
      get_model_response avail call p = "The AI model is currently unavailable.") ∧
    (∀ e, avail = true → call p = Except.error e →
      get_model_response avail call p =
        "An error occurred while contacting the AI model: " ++ e) ∧
    (∀ c, avail = true → call p = Except.ok c →
      get_model_response avail call p = c) := by
  refine ⟨?_, ?_, ?_⟩
  · intro h
    subst h
    rfl
  · intro e ha he
    subst ha
    simp [get_model_response, he]
  · intro c ha hc
    subst ha
    simp [get_model_response, hc]

/-- Witness for C8 at an unavailable client and at a failing call. -/
theorem model_response_inline_errors_witness :
    get_model_response false (fun _ => Except.error "quota") "p" =
      "The AI model is currently unavailable." ∧
    get_model_response true (fun _ => Except.error "quota") "p" =
      "An error occurred while contacting the AI model: " ++ "quota" :=
  ⟨(model_response_inline_errors false (fun _ => Except.error "quota") "p").1 rfl,
    (model_response_inline_errors true (fun _ => Except.error "quota") "p").2.1
      "quota" rfl rfl⟩

/-- C9: `create_general_prompt` is total and embeds the question verbatim
between two fixed template parts; the fixed prefix carries the mandatory
disclaimer verbatim, which contains the clinician-name placeholder
`Dr. [Your Name]` and the instruction to contact the practice directly;
nothing else in the output is dynamic. -/
theorem general_prompt_shape (q : String) :
    create_general_prompt q = general_prompt_pre ++ q ++ general_prompt_suf ∧
    (∃ a b : String, general_prompt_pre = a ++ mandatory_disclaimer ++ b) ∧
    (∃ a b : String, mandatory_disclaimer = a ++ "Dr. [Your Name]" ++ b) ∧
    (∃ a b : String,
      mandatory_disclaimer = a ++ "please contact the OrthoIndy office directly" ++ b) := by
  refine ⟨rfl,
    ⟨"You are a helpful AI assistant with deep medical knowledge. A patient from the OrthoIndy spine surgery practice has asked a general medical question that is not covered by their surgeon\x27s specific post-operative protocols. Your task is to answer the following question clearly and accurately for a patient.\nCRITICAL RULE: After providing your answer, you MUST include the following disclaimer verbatim (exactly as written) at the end of your response, separated by a line.\n---\n",
      "\n\nPATIENT QUESTION: \"", by decide⟩,
    ⟨"*Disclaimer: This is general medical information and not a substitute for direct medical advice regarding your specific condition. This information is not part of ",
      "\x27s official protocol. For any questions about your personal care plan, please contact the OrthoIndy office directly.*", by decide⟩,
    ⟨"*Disclaimer: This is general medical information and not a substitute for direct medical advice regarding your specific condition. This information is not part of Dr. [Your Name]\x27s official protocol. For any questions about your personal care plan, ",
      ".*", by decide⟩⟩

/-- C10: whenever the acceptance policy lets `find_relevant_info` return
a match, the tracked best index designates a valid position (the `-1`
sentinel is never used for the lookup) and the selected entry's overlap
score is at least 1. -/
theorem match_index_valid (q : String) (df : List ProtocolRow) (ctx : String)
    (h : (find_relevant_info q df).1 = some ctx) :
    ∃ j row, j < df.length ∧ (set_search_text df).get? j = some row ∧
      (scan_best (keywords q) (set_search_text df) 0 (0, -1)).2 = ((j : Nat) : Int) ∧
      ctx = make_context row ∧ 1 ≤ entry_score (keywords q) row := by
  obtain ⟨_, _, j, row, hget, hsnd, _, hpos1, _, hctx⟩ :=
    find_relevant_info_some_elim q df ctx h
  have hlen : (set_search_text df).length = df.length := by
    simp [set_search_text]
  obtain ⟨hj, _⟩ := List.get?_eq_some.mp hget
  exact ⟨j, row, by omega, hget, hsnd, hctx, hpos1⟩

/-- Witness for C10 at the query `"what is a discectomy"` and a matching
single-entry list. -/
theorem match_index_valid_witness :
    ∃ j row, j < ([discectomy_row] : List ProtocolRow).length ∧
      (set_search_text [discectomy_row]).get? j = some row ∧
      (scan_best (keywords "what is a discectomy")
          (set_search_text [discectomy_row]) 0 (0, -1)).2 = ((j : Nat) : Int) ∧
      make_context (search_text_row discectomy_row) = make_context row ∧
      1 ≤ entry_score (keywords "what is a discectomy") row :=
  match_index_valid "what is a discectomy" [discectomy_row]
    (make_context (search_text_row discectomy_row)) (by decide)

end SDG
